import Mathlib

/-!
Verification of `src/internal/task/task_threads.c` and `src/runtime/gc_boehm.c`
from the tinygo repository: the thread-backed task launcher, the per-thread
current-task binding, the GC pause-signal protocol, and the Boehm-GC
root-scan registration.

The C code is shallowly embedded in Lean:

* the spawner/spawned-thread rendezvous of `tinygo_task_start` and
  `start_wrapper` becomes a small-step interleaving system (`RvStep`),
  with the semaphore as a counter in the state;
* the per-thread `current_task` thread-local cell becomes a map from
  thread index to word, mutated by a multi-thread step system (`TlsStep`)
  in which a thread only ever writes its own slot (as in the C, where
  `__thread` storage is per-thread by construction);
* the straight-line portions of the C functions become event traces or
  plain functions (`tinygo_task_start_events`, `tinygo_task_init_numCPU`,
  `tinygo_runtime_bdwgc_init`);
* machine words (pointers, handles) are `Nat`, with `0` playing the role
  of the null pointer; error codes are `Int`.
-/

namespace TinygoTaskThreads

/-! ## Platform and signal numbers

`task_threads.c` lines 10-26: the reserved pause signal is `SIGRTMIN + 6`
on Linux and `SIGIO` on macOS.  The comment on line 13 records that BDWGC
also uses `SIGRTMIN + 6` on Linux; the comments on lines 21-23 record that
on macOS BDWGC pauses threads by a special non-signal mechanism (so it
claims no signal number there). -/

/-- The two platforms the file compiles for (`#ifdef __linux__` /
`#elif __APPLE__`). -/
inductive Platform where
  | linux
  | apple
deriving DecidableEq, Repr

/-- Signal number of `SIGIO` (interrupt-driven I/O), the value both Linux
and macOS use. -/
def SIGIO : Nat := 23

/-- Lines 14 and 24: the reserved pause signal number, parametrised by the
platform's value of `SIGRTMIN` (glibc chooses it at run time). -/
def taskPauseSignal (sigrtmin : Nat) : Platform → Nat
  | .linux => sigrtmin + 6
  | .apple => SIGIO

/-- Signal numbers already claimed by other collectors sharing the process,
as documented in the source itself: line 13 says BDWGC also uses
`SIGRTMIN + 6` on Linux; lines 21-23 say BDWGC uses a special non-signal
pause mechanism on macOS, so it claims no signal number there. -/
def otherCollectorSignals (sigrtmin : Nat) : Platform → List Nat
  | .linux => [sigrtmin + 6]
  | .apple => []

/-! ## tinygo_task_init: the CPU count (lines 64-70) -/

/-- Lines 64-70 of `tinygo_task_init`: the value stored into `*numCPU`,
as a function of what `sysconf(_SC_NPROCESSORS_ONLN)` returned (an `Int`,
since `sysconf` reports `-1` on error).  If the query reports a
non-positive value the code falls back to `1`. -/
def tinygo_task_init_numCPU (sysconfResult : Int) : Int :=
  if sysconfResult ≤ 0 then 1 else sysconfResult

/-! ## tinygo_task_start as an event trace (lines 104-141)

The straight-line body of `tinygo_task_start` is embedded as the list of
externally visible actions it performs, in program order, as a function of
the two compile-time sizes compared on line 106 and of the result that
`pthread_create` returns on line 125.  The semaphore creation is line
117/119, the attribute calls are lines 121-124, `pthread_attr_destroy` is
line 126, the early return on failure is lines 127-129, and the wait /
destroy / return on success are lines 131-140. -/

/-- One externally visible action of `tinygo_task_start`. -/
inductive StartEvent where
  /-- `__builtin_trap()` on line 107. -/
  | trap
  /-- `sem_init` (Linux) / `dispatch_semaphore_create` (macOS). -/
  | semCreate
  /-- `pthread_attr_init`. -/
  | attrInit
  /-- `pthread_attr_setdetachstate(..., PTHREAD_CREATE_DETACHED)`. -/
  | attrSetDetached
  /-- `pthread_attr_setstacksize(&attrs, stackSize)`. -/
  | attrSetStackSize (stackSize : Nat)
  /-- `pthread_create(thread, &attrs, &start_wrapper, &state)`. -/
  | createThread
  /-- `pthread_attr_destroy(&attrs)`. -/
  | attrDestroy
  /-- `sem_wait` (Linux) / `dispatch_semaphore_wait` (macOS), blocking on
  the rendezvous. -/
  | semWait
  /-- `sem_destroy` (Linux) / `dispatch_release` (macOS). -/
  | semDestroy
  /-- Return from `tinygo_task_start` with the given code. -/
  | ret (code : Int)
deriving DecidableEq, Repr

/-- The action trace of one `tinygo_task_start` call, lines 104-141,
as a function of `sizeof(pthread_t)`, `sizeof(void*)`, the requested stack
size, and the code returned by `pthread_create`. -/
def tinygo_task_start_events (sizeofPthreadT sizeofVoidPtr : Nat)
    (stackSize : Nat) (createResult : Int) : List StartEvent :=
  if sizeofPthreadT ≠ sizeofVoidPtr then
    [.trap]
  else
    [.semCreate, .attrInit, .attrSetDetached, .attrSetStackSize stackSize,
     .createThread, .attrDestroy] ++
    (if createResult ≠ 0 then
      [.ret createResult]
    else
      [.semWait, .semDestroy, .ret 0])

/-- Which of the two resources that `tinygo_task_start` explicitly creates
and destroys are still allocated. -/
structure StartResources where
  semAllocated : Bool
  attrAllocated : Bool
deriving DecidableEq, Repr

/-- Resource accounting over a `tinygo_task_start` action trace: the
semaphore is allocated by `semCreate` and released by `semDestroy`, the
thread-attribute object by `attrInit` / `attrDestroy`. -/
def resourcesAfter (events : List StartEvent) : StartResources :=
  events.foldl
    (fun r e =>
      match e with
      | .semCreate => { r with semAllocated := true }
      | .semDestroy => { r with semAllocated := false }
      | .attrInit => { r with attrAllocated := true }
      | .attrDestroy => { r with attrAllocated := false }
      | _ => r)
    ⟨false, false⟩

/-! ## The spawn rendezvous (start_wrapper, lines 76-101, and the
blocking tail of tinygo_task_start, lines 131-140)

After `pthread_create` succeeds, two threads run concurrently: the spawner
is blocked in `sem_wait(&state.startlock)` (line 136), and the new thread
runs `start_wrapper` (lines 76-101).  This is embedded as a small-step
interleaving system.  The wrapper's statements, in program order
(program counter `wpc`):

* 0 → 1 : `void *(*start)(void*) = state->start;` (line 78)
* 1 → 2 : `void *args = state->args;` (line 79)
* 2 → 3 : `current_task = state->task;` (line 80)
* 3 → 4 : `*(state->stackTop) = (uintptr_t)(&stackAddr);` (lines 83-84)
* 4 → 5 : `sem_post(&state->startlock);` (line 91)
* 5 → 6 : `start(args);` (line 95, the user entry function)
* 6 → 7 : `tinygo_task_exited(current_task);` (line 98)

The spawner (program counter `spc`) has a single step, 0 → 1:
`sem_wait(&state.startlock)` returning, enabled only when the semaphore
count is positive; `spc = 1` means `tinygo_task_start` has returned. -/

/-- The inputs the wrapper thread reads: the fields of `struct state_pass`
(lines 33-43) that were populated by the spawner (lines 110-115), plus the
address of the wrapper's own local variable `stackAddr` (line 83).  All
are machine words; in C the address of a local variable is never the null
pointer, which appears below as the hypothesis `stackAddr ≠ 0`. -/
structure StatePassInput where
  start : Nat
  args : Nat
  task : Nat
  stackAddr : Nat
deriving DecidableEq, Repr

/-- Joint state of the spawner and the wrapper thread: the two program
counters, the semaphore count, the total number of `sem_post` calls so
far, the wrapper's local copies `start` and `args`, the wrapper thread's
`current_task` cell, and the word stored at `*stackTop`. -/
structure RvState where
  spc : Nat
  wpc : Nat
  sem : Nat
  posts : Nat
  lstart : Nat
  largs : Nat
  tls : Nat
  stackTopCell : Nat
deriving DecidableEq, Repr

/-- Initial state: both threads at their first statement, semaphore count
`0` (line 119: `sem_init(&state.startlock, 0, 0)`), the wrapper's locals
and thread-local cell zero-initialized, `*stackTop` not yet written
(modelled as holding `0`). -/
def RvInit : RvState :=
  ⟨0, 0, 0, 0, 0, 0, 0, 0⟩

/-- One interleaving step of the two threads. -/
inductive RvStep (P : StatePassInput) : RvState → RvState → Prop
  /-- Line 78: the wrapper copies `state->start` into a local. -/
  | copyStart {s : RvState} (h : s.wpc = 0) :
      RvStep P s { s with wpc := 1, lstart := P.start }
  /-- Line 79: the wrapper copies `state->args` into a local. -/
  | copyArgs {s : RvState} (h : s.wpc = 1) :
      RvStep P s { s with wpc := 2, largs := P.args }
  /-- Line 80: the wrapper stores `state->task` into its thread-local
  `current_task` cell. -/
  | setCurrentTask {s : RvState} (h : s.wpc = 2) :
      RvStep P s { s with wpc := 3, tls := P.task }
  /-- Lines 83-84: the wrapper writes the address of its local
  `stackAddr` through `state->stackTop`. -/
  | writeStackTop {s : RvState} (h : s.wpc = 3) :
      RvStep P s { s with wpc := 4, stackTopCell := P.stackAddr }
  /-- Line 91: `sem_post` increments the semaphore. -/
  | semPost {s : RvState} (h : s.wpc = 4) :
      RvStep P s { s with wpc := 5, sem := s.sem + 1, posts := s.posts + 1 }
  /-- Line 95: the wrapper runs the user entry function. -/
  | runEntry {s : RvState} (h : s.wpc = 5) :
      RvStep P s { s with wpc := 6 }
  /-- Line 98: the wrapper notifies the Go side that this thread exits. -/
  | notifyExited {s : RvState} (h : s.wpc = 6) :
      RvStep P s { s with wpc := 7 }
  /-- Line 136: the spawner's `sem_wait` returns; it is enabled only when
  the semaphore count is positive, and decrements it. -/
  | semWaitRet {s : RvState} (h : s.spc = 0) (hsem : 0 < s.sem) :
      RvStep P s { s with spc := 1, sem := s.sem - 1 }

/-- Reachability from the initial joint state. -/
def RvReach (P : StatePassInput) (s : RvState) : Prop :=
  Relation.ReflTransGen (RvStep P) RvInit s

/-- The inductive invariant of the rendezvous system: each observable cell
holds exactly what the program counters say it must. -/
def RvInv (P : StatePassInput) (s : RvState) : Prop :=
  s.spc ≤ 1 ∧ s.wpc ≤ 7 ∧
  s.posts = (if 5 ≤ s.wpc then 1 else 0) ∧
  s.sem + (if s.spc = 1 then 1 else 0) = s.posts ∧
  s.lstart = (if 1 ≤ s.wpc then P.start else 0) ∧
  s.largs = (if 2 ≤ s.wpc then P.args else 0) ∧
  s.tls = (if 3 ≤ s.wpc then P.task else 0) ∧
  s.stackTopCell = (if 4 ≤ s.wpc then P.stackAddr else 0)

/-! ## The per-thread current_task cell across many threads

Line 31 declares `static __thread void *current_task;`: one zero-
initialized cell per OS thread.  `tinygo_task_current` (lines 144-146)
returns the calling thread's cell.  To reason about several spawned
threads at once, the cells are a map from thread index to word and every
thread runs the `start_wrapper` program of `RvStep`; the only step that
touches a `current_task` cell is line 80, and it writes the cell of the
executing thread itself (that is what `__thread` storage means).  The
per-spawn semaphores and locals are thread-private and already modelled
in `RvStep`, so this system tracks only the program counters and the
`current_task` cells. -/

/-- Pointwise update of a map at one index. -/
def setAt (f : Nat → Nat) (i v : Nat) : Nat → Nat :=
  fun j => if j = i then v else f j

/-- Joint state of `n`-many wrapper threads (indexed by `Nat`): each
thread's program counter and each thread's `current_task` cell. -/
structure TlsState where
  pcs : Nat → Nat
  tls : Nat → Nat

/-- Initial state: every thread at its first statement; every
`current_task` cell zero-initialized, as C guarantees for `__thread`
storage (line 31 has no initializer). -/
def TlsInit : TlsState :=
  ⟨fun _ => 0, fun _ => 0⟩

/-- One step of one wrapper thread `i`, with `tasks i` the Task handle
that was passed to `tinygo_task_start` for that thread.  The stages are
those of `start_wrapper` (lines 78, 79, 80, 83-84, 91, 95, 98); stage
5 → 6 is the return of the user entry function, so `pcs i = 5` is "thread
`i` is executing its entry function".  Only the `bind` step (line 80)
writes a `current_task` cell, and only the cell of the stepping thread. -/
inductive TlsStep (tasks : Nat → Nat) : TlsState → TlsState → Prop
  /-- Line 78 on thread `i`. -/
  | copyStart {s : TlsState} (i : Nat) (h : s.pcs i = 0) :
      TlsStep tasks s ⟨setAt s.pcs i 1, s.tls⟩
  /-- Line 79 on thread `i`. -/
  | copyArgs {s : TlsState} (i : Nat) (h : s.pcs i = 1) :
      TlsStep tasks s ⟨setAt s.pcs i 2, s.tls⟩
  /-- Line 80 on thread `i`: `current_task = state->task`, writing thread
  `i`'s own thread-local cell. -/
  | bind {s : TlsState} (i : Nat) (h : s.pcs i = 2) :
      TlsStep tasks s ⟨setAt s.pcs i 3, setAt s.tls i (tasks i)⟩
  /-- Lines 83-84 on thread `i`. -/
  | writeStackTop {s : TlsState} (i : Nat) (h : s.pcs i = 3) :
      TlsStep tasks s ⟨setAt s.pcs i 4, s.tls⟩
  /-- Line 91 on thread `i`. -/
  | semPost {s : TlsState} (i : Nat) (h : s.pcs i = 4) :
      TlsStep tasks s ⟨setAt s.pcs i 5, s.tls⟩
  /-- Line 95 on thread `i`: the entry function returns. -/
  | entryReturns {s : TlsState} (i : Nat) (h : s.pcs i = 5) :
      TlsStep tasks s ⟨setAt s.pcs i 6, s.tls⟩
  /-- Line 98 on thread `i`. -/
  | notifyExited {s : TlsState} (i : Nat) (h : s.pcs i = 6) :
      TlsStep tasks s ⟨setAt s.pcs i 7, s.tls⟩

/-- Reachability from the all-initial state. -/
def TlsReach (tasks : Nat → Nat) (s : TlsState) : Prop :=
  Relation.ReflTransGen (TlsStep tasks) TlsInit s

/-- The inductive invariant: a thread that has passed line 80 has its own
handle in its cell; one that has not still has the zero-initialized
cell. -/
def TlsInv (tasks : Nat → Nat) (s : TlsState) : Prop :=
  ∀ i, s.pcs i ≤ 7 ∧
    (3 ≤ s.pcs i → s.tls i = tasks i) ∧
    (s.pcs i < 3 → s.tls i = 0)

/-- Lines 144-146: `tinygo_task_current` returns the calling thread's
`current_task` cell. -/
def tinygo_task_current (tls : Nat → Nat) (self : Nat) : Nat :=
  tls self

/-! ## start_wrapper over time-varying record memory (lines 76-101)

For the no-use-after-handoff property, `start_wrapper` is embedded a
second time, now as a trace over a time-indexed view of the Start-transfer
record's memory: `mem t` is the record's contents when the wrapper
executes its statement number `t`.  The wrapper reads `state->start` at
time 0 (line 78), `state->args` at time 1 (line 79), `state->task` at
time 2 (line 80), `state->stackTop` at time 3 (line 84), and touches the
record's semaphore at time 4 (line 91, the signal); from time 5 on it uses
only its local copies (lines 95 and 98 mention only `start`, `args` and
`current_task`). -/

/-- The contents of a `struct state_pass` (lines 33-43) at one instant,
including the semaphore object that lives inside it. -/
structure StatePassMem where
  start : Nat
  args : Nat
  task : Nat
  stackTop : Nat
  startlock : Nat
deriving DecidableEq, Repr

/-- One observable event of the wrapper thread. -/
inductive WrapperEvent where
  | copiedStart (v : Nat)
  | copiedArgs (v : Nat)
  | setTask (v : Nat)
  | wroteStackTop (addr val : Nat)
  | signaled (semObj : Nat)
  | calledEntry (fn arg : Nat)
  | notifiedExit (task : Nat)
deriving DecidableEq, Repr

/-- The full event trace of `start_wrapper` (lines 76-101) over a
time-indexed record memory `mem` (the record's contents at each of the
wrapper's statements) and the address `stackAddr` of the wrapper's own
local variable.  Each field is read from the record exactly at the
statement that reads it in the C code; the two statements after the
signal (lines 95 and 98) use only the local copies. -/
def start_wrapper_trace (mem : Nat → StatePassMem) (stackAddr : Nat) :
    List WrapperEvent :=
  let lstart := (mem 0).start
  let largs := (mem 1).args
  let ltask := (mem 2).task
  let topAddr := (mem 3).stackTop
  [WrapperEvent.copiedStart lstart,
   WrapperEvent.copiedArgs largs,
   WrapperEvent.setTask ltask,
   WrapperEvent.wroteStackTop topAddr stackAddr,
   WrapperEvent.signaled (mem 4).startlock,
   WrapperEvent.calledEntry lstart largs,
   WrapperEvent.notifiedExit ltask]

/-- The part of the wrapper's trace strictly after the rendezvous signal
(everything from line 95 on). -/
def wrapperTraceAfterSignal (mem : Nat → StatePassMem) (stackAddr : Nat) :
    List WrapperEvent :=
  (start_wrapper_trace mem stackAddr).drop 5

/-! ## tinygo_task_send_gc_signal (lines 149-151) -/

/-- The `ESRCH` error code `pthread_kill` returns when the target thread
does not exist. -/
def ESRCH : Int := 3

/-- POSIX `pthread_kill`, modelled from its documented contract (it is
libc, external to this repository): it delivers `sig` to exactly the one
named thread when that thread exists, returning `0`, and delivers nothing
and returns `ESRCH` when it does not.  The second component is the
delivery map: which signal, if any, each thread index receives. -/
def pthread_kill (alive : Nat → Bool) (thread : Nat) (sig : Nat) :
    Int × (Nat → Option Nat) :=
  if alive thread then
    (0, fun j => if j = thread then some sig else none)
  else
    (ESRCH, fun _ => none)

/-- Lines 149-151: `tinygo_task_send_gc_signal(thread)` calls
`pthread_kill(thread, taskPauseSignal)` and discards its result; the C
function returns `void`, so only the delivery map is observable and no
error code can be propagated to the caller. -/
def tinygo_task_send_gc_signal (sigrtmin : Nat) (p : Platform)
    (alive : Nat → Bool) (thread : Nat) : Nat → Option Nat :=
  (pthread_kill alive thread (taskPauseSignal sigrtmin p)).2

end TinygoTaskThreads

namespace TinygoGcBoehm

/-! ## gc_boehm.c: collector initialization (lines 14-37) -/

/-- Lines 20-21: the replacement warning procedure installed on
WebAssembly.  Its C body is empty, so it emits nothing for every message
and argument.  The result is the diagnostic text actually emitted
(`none` = suppressed). -/
def warn_proc (msg : String) (arg : Nat) : Option String := none

/-- The collector's default warning procedure, which prints every warning
it is handed (BDWGC's documented default behavior; the collector itself is
external to this repository). -/
def GC_default_warn_proc (msg : String) (arg : Nat) : Option String :=
  some msg

/-- The first line of the "large allocation" diagnostic class quoted in
the comment on lines 27-29. -/
def largeAllocationMsg : String :=
  "GC Warning: Repeated allocation of very large block (appr. size 68 KiB): May lead to memory leak and poor performance"

/-- An example of a different diagnostic class the collector can emit. -/
def outOfMemoryMsg : String :=
  "GC Warning: Out of Memory! Trying to continue..."

/-- The collector hooks that `tinygo_runtime_bdwgc_init` can install: the
push-other-roots callback registration and the current warning
procedure. -/
structure GCHooks where
  pushOtherRootsRegistered : Bool
  warn : String → Nat → Option String

/-- The collector's hook state before `tinygo_runtime_bdwgc_init` runs:
no extra-roots callback, default warning procedure. -/
def GC_defaultHooks : GCHooks :=
  ⟨false, GC_default_warn_proc⟩

/-- Lines 23-37: `tinygo_runtime_bdwgc_init` registers the extra-roots
callback with `GC_set_push_other_roots` unconditionally and, only when
compiled for WebAssembly (`#if defined(__wasm__)`), replaces the warning
procedure with `warn_proc` via `GC_set_warn_proc`. -/
def tinygo_runtime_bdwgc_init (wasm : Bool) (h : GCHooks) : GCHooks :=
  let h1 : GCHooks := { h with pushOtherRootsRegistered := true }
  if wasm then { h1 with warn := warn_proc } else h1

end TinygoGcBoehm

/-!
# Theorems
-/

namespace TinygoTaskThreads

/-- The initial joint state satisfies the rendezvous invariant. -/
theorem rvInv_init (P : StatePassInput) : RvInv P RvInit := by
  simp [RvInv, RvInit]

/-- The rendezvous invariant is preserved by every interleaving step. -/
theorem rvInv_step (P : StatePassInput) {s t : RvState}
    (hstep : RvStep P s t) (hI : RvInv P s) : RvInv P t := by
  obtain ⟨h1, h2, h3, h4, h5, h6, h7, h8⟩ := hI
  cases hstep with
  | copyStart h => refine ⟨?_, ?_, ?_, ?_, ?_, ?_, ?_, ?_⟩ <;> simp_all [RvInv]
  | copyArgs h => refine ⟨?_, ?_, ?_, ?_, ?_, ?_, ?_, ?_⟩ <;> simp_all [RvInv]
  | setCurrentTask h => refine ⟨?_, ?_, ?_, ?_, ?_, ?_, ?_, ?_⟩ <;> simp_all [RvInv]
  | writeStackTop h => refine ⟨?_, ?_, ?_, ?_, ?_, ?_, ?_, ?_⟩ <;> simp_all [RvInv]
  | semPost h => refine ⟨?_, ?_, ?_, ?_, ?_, ?_, ?_, ?_⟩ <;> simp_all [RvInv]
  | runEntry h => refine ⟨?_, ?_, ?_, ?_, ?_, ?_, ?_, ?_⟩ <;> simp_all [RvInv]
  | notifyExited h => refine ⟨?_, ?_, ?_, ?_, ?_, ?_, ?_, ?_⟩ <;> simp_all [RvInv]
  | semWaitRet h hsem =>
      refine ⟨?_, ?_, ?_, ?_, ?_, ?_, ?_, ?_⟩ <;> simp_all [RvInv] <;> omega

/-- Every reachable joint state satisfies the rendezvous invariant. -/
theorem rvReach_inv (P : StatePassInput) {s : RvState}
    (hr : RvReach P s) : RvInv P s := by
  induction hr with
  | refl => exact rvInv_init P
  | tail _ hstep ih => exact rvInv_step P hstep ih

/-- C1: for every successful `tinygo_task_start` call, in every reachable
state in which the spawner has returned (`spc = 1`), the new thread has
already copied the entry function, argument and Task handle out of the
Start-transfer record, has written the non-zero address of its own local
variable into the caller-supplied stack-top location, and has signaled
the rendezvous semaphore (`wpc` is past the `sem_post` on line 91); and
in any reachable state in which the wrapper has reached or passed the
user entry function (`5 ≤ wpc`), the semaphore has already been
posted. -/
theorem start_returns_only_after_handoff (P : StatePassInput)
    (hA : P.stackAddr ≠ 0) (s : RvState) (hr : RvReach P s) :
    (s.spc = 1 →
      5 ≤ s.wpc ∧ s.lstart = P.start ∧ s.largs = P.args ∧
      s.tls = P.task ∧ s.stackTopCell = P.stackAddr ∧
      s.stackTopCell ≠ 0) ∧
    (5 ≤ s.wpc → 1 ≤ s.posts) := by
  obtain ⟨h1, h2, h3, h4, h5, h6, h7, h8⟩ := rvReach_inv P hr
  constructor
  · intro hret
    have hw : 5 ≤ s.wpc := by
      by_contra hc
      rw [if_neg hc] at h3
      rw [hret, if_pos rfl] at h4
      omega
    refine ⟨hw, ?_, ?_, ?_, ?_, ?_⟩
    · rw [h5, if_pos (by omega)]
    · rw [h6, if_pos (by omega)]
    · rw [h7, if_pos (by omega)]
    · rw [h8, if_pos (by omega)]
    · rw [h8, if_pos (by omega)]; exact hA
  · intro hw
    rw [if_pos hw] at h3
    omega

/-- Witness for C1: a concrete run with record fields 10, 20, 30 and
stack-top address 40, stepped through the whole rendezvous; in the final
state the spawner has returned and all handoff facts hold. -/
theorem start_returns_only_after_handoff_witness :
    (StatePassInput.mk 10 20 30 40).stackAddr ≠ 0 ∧
    RvReach ⟨10, 20, 30, 40⟩ ⟨1, 5, 0, 1, 10, 20, 30, 40⟩ ∧
    (RvState.mk 1 5 0 1 10 20 30 40).spc = 1 ∧
    (5 ≤ (RvState.mk 1 5 0 1 10 20 30 40).wpc ∧
      (RvState.mk 1 5 0 1 10 20 30 40).lstart = 10 ∧
      (RvState.mk 1 5 0 1 10 20 30 40).largs = 20 ∧
      (RvState.mk 1 5 0 1 10 20 30 40).tls = 30 ∧
      (RvState.mk 1 5 0 1 10 20 30 40).stackTopCell = 40 ∧
      (RvState.mk 1 5 0 1 10 20 30 40).stackTopCell ≠ 0) := by
  have hreach : RvReach ⟨10, 20, 30, 40⟩ ⟨1, 5, 0, 1, 10, 20, 30, 40⟩ := by
    refine Relation.ReflTransGen.head (RvStep.copyStart rfl) ?_
    refine Relation.ReflTransGen.head (RvStep.copyArgs rfl) ?_
    refine Relation.ReflTransGen.head (RvStep.setCurrentTask rfl) ?_
    refine Relation.ReflTransGen.head (RvStep.writeStackTop rfl) ?_
    refine Relation.ReflTransGen.head (RvStep.semPost rfl) ?_
    refine Relation.ReflTransGen.head (RvStep.semWaitRet rfl (by decide)) ?_
    exact Relation.ReflTransGen.refl
  exact ⟨by decide, hreach, rfl,
    (start_returns_only_after_handoff ⟨10, 20, 30, 40⟩ (by decide) _ hreach).1 rfl⟩

end TinygoTaskThreads

namespace TinygoTaskThreads

/-- The initial multi-thread state satisfies the thread-local
invariant. -/
theorem tlsInv_init (tasks : Nat → Nat) : TlsInv tasks TlsInit := by
  intro i
  simp [TlsInv, TlsInit]

/-- The thread-local invariant is preserved by every step of every
thread: a step of thread `i` never writes another thread's cell. -/
theorem tlsInv_step (tasks : Nat → Nat) {s t : TlsState}
    (hstep : TlsStep tasks s t) (hI : TlsInv tasks s) : TlsInv tasks t := by
  cases hstep with
  | copyStart i h =>
      intro j
      by_cases hj : j = i
      · subst hj; obtain ⟨a, b, c⟩ := hI j; simp_all [setAt]
      · simpa [setAt, hj] using hI j
  | copyArgs i h =>
      intro j
      by_cases hj : j = i
      · subst hj; obtain ⟨a, b, c⟩ := hI j; simp_all [setAt]
      · simpa [setAt, hj] using hI j
  | bind i h =>
      intro j
      by_cases hj : j = i
      · subst hj; simp [setAt]
      · simpa [setAt, hj] using hI j
  | writeStackTop i h =>
      intro j
      by_cases hj : j = i
      · subst hj; obtain ⟨a, b, c⟩ := hI j; simp_all [setAt]
      · simpa [setAt, hj] using hI j
  | semPost i h =>
      intro j
      by_cases hj : j = i
      · subst hj; obtain ⟨a, b, c⟩ := hI j; simp_all [setAt]
      · simpa [setAt, hj] using hI j
  | entryReturns i h =>
      intro j
      by_cases hj : j = i
      · subst hj; obtain ⟨a, b, c⟩ := hI j; simp_all [setAt]
      · simpa [setAt, hj] using hI j
  | notifyExited i h =>
      intro j
      by_cases hj : j = i
      · subst hj; obtain ⟨a, b, c⟩ := hI j; simp_all [setAt]
      · simpa [setAt, hj] using hI j

/-- Every reachable multi-thread state satisfies the thread-local
invariant. -/
theorem tlsReach_inv (tasks : Nat → Nat) {s : TlsState}
    (hr : TlsReach tasks s) : TlsInv tasks s := by
  induction hr with
  | refl => exact tlsInv_init tasks
  | tail _ hstep ih => exact tlsInv_step tasks hstep ih

/-- C2: on every thread created via `tinygo_task_start`, at every
reachable point at which that thread is executing its entry function
(`pcs i = 5`, i.e. past line 80 and before the entry function returns),
`tinygo_task_current` on that thread returns exactly the Task handle
passed to `start` for that thread — never null (given that the embedding
runtime passes non-null handles) and never another thread's handle (given
that distinct threads were handed distinct handles). -/
theorem current_returns_own_task (tasks : Nat → Nat)
    (hnz : ∀ i, tasks i ≠ 0)
    (hinj : ∀ i j, tasks i = tasks j → i = j)
    (s : TlsState) (hr : TlsReach tasks s)
    (i : Nat) (hrun : s.pcs i = 5) :
    tinygo_task_current s.tls i = tasks i ∧
    tinygo_task_current s.tls i ≠ 0 ∧
    ∀ j, j ≠ i → tinygo_task_current s.tls i ≠ tasks j := by
  obtain ⟨a, b, c⟩ := tlsReach_inv tasks hr i
  have htls : s.tls i = tasks i := b (by omega)
  refine ⟨htls, ?_, ?_⟩
  · simpa [tinygo_task_current, htls] using hnz i
  · intro j hj hcontra
    rw [tinygo_task_current, htls] at hcontra
    exact hj (hinj j i hcontra.symm)

/-- Witness for C2: thread 0, with task handles `i + 100`, stepped up to
its entry function; `tinygo_task_current` there returns handle 100. -/
theorem current_returns_own_task_witness :
    TlsReach (fun i => i + 100)
      ⟨setAt (setAt (setAt (setAt (setAt (fun _ => 0) 0 1) 0 2) 0 3) 0 4)
        0 5,
       setAt (fun _ => 0) 0 100⟩ ∧
    tinygo_task_current (setAt (fun _ => 0) 0 100) 0 = 100 ∧
    tinygo_task_current (setAt (fun _ => 0) 0 100) 0 ≠ 0 := by
  have hreach : TlsReach (fun i => i + 100)
      ⟨setAt (setAt (setAt (setAt (setAt (fun _ => 0) 0 1) 0 2) 0 3) 0 4)
        0 5,
       setAt (fun _ => 0) 0 100⟩ := by
    refine Relation.ReflTransGen.head (TlsStep.copyStart 0 rfl) ?_
    refine Relation.ReflTransGen.head (TlsStep.copyArgs 0 rfl) ?_
    refine Relation.ReflTransGen.head (TlsStep.bind 0 rfl) ?_
    refine Relation.ReflTransGen.head (TlsStep.writeStackTop 0 rfl) ?_
    refine Relation.ReflTransGen.head (TlsStep.semPost 0 rfl) ?_
    exact Relation.ReflTransGen.refl
  have h := current_returns_own_task (fun i => i + 100)
    (fun i => by show i + 100 ≠ 0; omega)
    (fun i j hij => Nat.add_right_cancel (hij : i + 100 = j + 100))
    _ hreach 0 rfl
  exact ⟨hreach, h.1, h.2.1⟩

/-- C4: on a thread on which no task was ever bound (its program counter
is still before line 80 — in particular a thread that never ran
`tinygo_task_init` or `start_wrapper` at all stays at counter 0 forever),
`tinygo_task_current` returns the zero-initialized null value — the
distinguished "never bound" answer that line 31's `static __thread`
declaration guarantees — and never an arbitrary value. -/
theorem current_unbound_returns_null (tasks : Nat → Nat)
    (s : TlsState) (hr : TlsReach tasks s)
    (i : Nat) (hunbound : s.pcs i = 0) :
    tinygo_task_current s.tls i = 0 := by
  obtain ⟨a, b, c⟩ := tlsReach_inv tasks hr i
  exact c (by omega)

/-- Witness for C4: thread 1 runs up to line 80 and binds its own handle,
while thread 0 never runs; `tinygo_task_current` on thread 0 returns the
null value 0. -/
theorem current_unbound_returns_null_witness :
    TlsReach (fun i => i + 100)
      ⟨setAt (setAt (setAt (fun _ => 0) 1 1) 1 2) 1 3,
       setAt (fun _ => 0) 1 101⟩ ∧
    (setAt (setAt (setAt (fun _ => 0) 1 1) 1 2) 1 3) 0 = 0 ∧
    tinygo_task_current (setAt (fun _ => 0) 1 101) 0 = 0 := by
  have hreach : TlsReach (fun i => i + 100)
      ⟨setAt (setAt (setAt (fun _ => 0) 1 1) 1 2) 1 3,
       setAt (fun _ => 0) 1 101⟩ := by
    refine Relation.ReflTransGen.head (TlsStep.copyStart 1 rfl) ?_
    refine Relation.ReflTransGen.head (TlsStep.copyArgs 1 rfl) ?_
    refine Relation.ReflTransGen.head (TlsStep.bind 1 rfl) ?_
    exact Relation.ReflTransGen.refl
  exact ⟨hreach, rfl,
    current_unbound_returns_null (fun i => i + 100) _ hreach 0 rfl⟩

end TinygoTaskThreads

namespace TinygoTaskThreads

/-- Counterexample for C3: with matching sizes and `pthread_create`
failing with code 11 (`EAGAIN`), `tinygo_task_start` does return the code
immediately without waiting and destroys the attribute object, but the
rendezvous semaphore created on line 117/119 is still allocated when it
returns — the failure path never runs `sem_destroy` / `dispatch_release`
— so the claim that no resource beyond the attribute object is left
allocated is false. -/
theorem start_failure_leaves_semaphore_allocated :
    (tinygo_task_start_events 8 8 16384 11).getLast? =
      some (StartEvent.ret 11) ∧
    StartEvent.semWait ∉ tinygo_task_start_events 8 8 16384 11 ∧
    (resourcesAfter (tinygo_task_start_events 8 8 16384 11)).attrAllocated
      = false ∧
    (resourcesAfter (tinygo_task_start_events 8 8 16384 11)).semAllocated
      = true := by
  decide

/-- C3 amended: if OS thread creation fails inside `tinygo_task_start`,
the function returns the underlying OS error code immediately as its last
action, never waits on the rendezvous semaphore, and destroys the OS
thread-attribute object — but the rendezvous semaphore it created before
`pthread_create` remains allocated (the failure path does not destroy
it). -/
theorem start_failure_returns_error_immediately
    (sizeofBoth stackSize : Nat) (createResult : Int)
    (hfail : createResult ≠ 0) :
    tinygo_task_start_events sizeofBoth sizeofBoth stackSize createResult =
      [StartEvent.semCreate, StartEvent.attrInit,
       StartEvent.attrSetDetached, StartEvent.attrSetStackSize stackSize,
       StartEvent.createThread, StartEvent.attrDestroy,
       StartEvent.ret createResult] ∧
    StartEvent.semWait ∉
      tinygo_task_start_events sizeofBoth sizeofBoth stackSize createResult ∧
    resourcesAfter
      (tinygo_task_start_events sizeofBoth sizeofBoth stackSize createResult)
      = ⟨true, false⟩ := by
  have hev : tinygo_task_start_events sizeofBoth sizeofBoth stackSize
      createResult =
      [StartEvent.semCreate, StartEvent.attrInit,
       StartEvent.attrSetDetached, StartEvent.attrSetStackSize stackSize,
       StartEvent.createThread, StartEvent.attrDestroy,
       StartEvent.ret createResult] := by
    unfold tinygo_task_start_events
    rw [if_neg (by simp), if_pos hfail]
    rfl
  refine ⟨hev, ?_, ?_⟩
  · rw [hev]
    simp
  · rw [hev]
    rfl

/-- Witness for C3 (amended claim) at sizes 8/8, stack size 16384, and
`pthread_create` failing with 11. -/
theorem start_failure_returns_error_immediately_witness :
    (11 : Int) ≠ 0 ∧
    tinygo_task_start_events 8 8 16384 11 =
      [StartEvent.semCreate, StartEvent.attrInit,
       StartEvent.attrSetDetached, StartEvent.attrSetStackSize 16384,
       StartEvent.createThread, StartEvent.attrDestroy,
       StartEvent.ret 11] ∧
    StartEvent.semWait ∉ tinygo_task_start_events 8 8 16384 11 ∧
    resourcesAfter (tinygo_task_start_events 8 8 16384 11)
      = ⟨true, false⟩ :=
  ⟨by decide,
   start_failure_returns_error_immediately 8 16384 11 (by decide)⟩

/-- C6: `tinygo_task_send_gc_signal(thread)` delivers the reserved pause
signal to exactly the one named thread when it is alive, delivers nothing
at all (no broadcast, no crash) when the target no longer exists, and —
since the C function returns `void` and discards `pthread_kill`'s code —
propagates no error in either case: its observable result is exactly the
delivery map below. -/
theorem send_gc_signal_targets_exactly_one (sigrtmin : Nat) (p : Platform)
    (alive : Nat → Bool) (thread j : Nat) :
    tinygo_task_send_gc_signal sigrtmin p alive thread j =
      (if alive thread ∧ j = thread then some (taskPauseSignal sigrtmin p)
       else none) := by
  unfold tinygo_task_send_gc_signal pthread_kill
  by_cases h : alive thread
  · simp [h]
  · simp [h]

/-- C7 counterexample: on Linux (with the common glibc value
`SIGRTMIN = 34`) the chosen pause signal `SIGRTMIN + 6 = 40` is exactly
the number the source's own comment (line 13) says BDWGC also uses, so
the chosen number does collide with a number already claimed by another
collector sharing the process. -/
theorem taskPauseSignal_collides_with_bdwgc_on_linux :
    taskPauseSignal 34 Platform.linux ∈
      otherCollectorSignals 34 Platform.linux := by
  decide

/-- C7 amended: on macOS the chosen pause signal (`SIGIO`) does not
collide with any signal number claimed by another collector (BDWGC uses a
non-signal pause mechanism there, lines 21-23); on Linux the chosen
number is `SIGRTMIN + 6`, which is precisely the number BDWGC also uses —
a deliberate sharing documented in the source comment on line 13, not an
avoidance of it. -/
theorem taskPauseSignal_platform_choice (sigrtmin : Nat) :
    taskPauseSignal sigrtmin Platform.apple ∉
      otherCollectorSignals sigrtmin Platform.apple ∧
    taskPauseSignal sigrtmin Platform.linux = sigrtmin + 6 ∧
    taskPauseSignal sigrtmin Platform.linux ∈
      otherCollectorSignals sigrtmin Platform.linux := by
  refine ⟨?_, rfl, ?_⟩
  · simp [otherCollectorSignals]
  · simp [taskPauseSignal, otherCollectorSignals]

/-- C8: when the platform's OS thread-identifier representation is wider
than a pointer, the very first thing `tinygo_task_start` does is
`__builtin_trap()` (line 107): the whole action trace is the trap — the
process aborts before any semaphore or thread is created, and the
condition is a comparison of compile-time constants, so it is decided at
compile/initialization time. -/
theorem start_traps_on_wide_thread_id
    (sizeofPthreadT sizeofVoidPtr stackSize : Nat) (createResult : Int)
    (hwide : sizeofVoidPtr < sizeofPthreadT) :
    tinygo_task_start_events sizeofPthreadT sizeofVoidPtr stackSize
      createResult = [StartEvent.trap] := by
  unfold tinygo_task_start_events
  rw [if_pos (by omega)]

/-- Witness for C8: a 16-byte `pthread_t` against an 8-byte pointer. -/
theorem start_traps_on_wide_thread_id_witness :
    8 < 16 ∧
    tinygo_task_start_events 16 8 4096 0 = [StartEvent.trap] :=
  ⟨by decide, start_traps_on_wide_thread_id 16 8 4096 0 (by decide)⟩

/-- C9: the spawned thread's whole event trace — in particular everything
after it signals the rendezvous semaphore — depends only on the
Start-transfer record's contents up to and including the signal (times 0
through 4): two runs whose record memory agrees up to the signal but
differs arbitrarily afterwards produce identical wrapper behavior. -/
theorem wrapper_ignores_record_after_signal
    (mem1 mem2 : Nat → StatePassMem) (stackAddr : Nat)
    (hagree : ∀ t, t ≤ 4 → mem1 t = mem2 t) :
    start_wrapper_trace mem1 stackAddr = start_wrapper_trace mem2 stackAddr ∧
    wrapperTraceAfterSignal mem1 stackAddr =
      wrapperTraceAfterSignal mem2 stackAddr := by
  have htrace : start_wrapper_trace mem1 stackAddr =
      start_wrapper_trace mem2 stackAddr := by
    unfold start_wrapper_trace
    rw [hagree 0 (by omega), hagree 1 (by omega), hagree 2 (by omega),
      hagree 3 (by omega), hagree 4 (by omega)]
  exact ⟨htrace, by unfold wrapperTraceAfterSignal; rw [htrace]⟩

/-- Witness for C9: a record that is overwritten with garbage (all 9s)
from time 5 on — the instant after the signal — versus one that keeps
its contents; they differ at time 5, yet the wrapper's trace is
identical. -/
theorem wrapper_ignores_record_after_signal_witness :
    (∀ t, t ≤ 4 →
      (fun u => if u ≤ 4 then StatePassMem.mk 1 2 3 4 5
        else StatePassMem.mk 9 9 9 9 9) t =
      (fun _ => StatePassMem.mk 1 2 3 4 5) t) ∧
    (fun u => if u ≤ 4 then StatePassMem.mk 1 2 3 4 5
      else StatePassMem.mk 9 9 9 9 9) 5 ≠
      (fun _ => StatePassMem.mk 1 2 3 4 5) 5 ∧
    start_wrapper_trace
      (fun u => if u ≤ 4 then StatePassMem.mk 1 2 3 4 5
        else StatePassMem.mk 9 9 9 9 9) 7 =
      start_wrapper_trace (fun _ => StatePassMem.mk 1 2 3 4 5) 7 := by
  have hagree : ∀ t, t ≤ 4 →
      (fun u => if u ≤ 4 then StatePassMem.mk 1 2 3 4 5
        else StatePassMem.mk 9 9 9 9 9) t =
      (fun _ => StatePassMem.mk 1 2 3 4 5) t := by
    intro t ht
    simp [ht]
  exact ⟨hagree, by decide,
    (wrapper_ignores_record_after_signal _ _ 7 hagree).1⟩

/-- C10: `tinygo_task_init` always stores a CPU count of at least 1 into
its `numCPU` out-parameter, whatever `sysconf` reported (including the
error value `-1` and the nonsensical `0`). -/
theorem numCPU_at_least_one (sysconfResult : Int) :
    1 ≤ tinygo_task_init_numCPU sysconfResult := by
  unfold tinygo_task_init_numCPU
  split <;> omega

end TinygoTaskThreads

namespace TinygoGcBoehm

/-- Counterexample for C5: on WebAssembly the installed filter also
suppresses a warning of a different class — here the collector's
out-of-memory warning, which is not the "large allocation" class — so the
claim that only the large-allocation diagnostic class is suppressed is
false. -/
theorem warn_filter_suppresses_other_classes :
    (tinygo_runtime_bdwgc_init true GC_defaultHooks).warn
      outOfMemoryMsg 0 = none ∧
    outOfMemoryMsg ≠ largeAllocationMsg := by
  constructor
  · rfl
  · decide

/-- C5 amended: `tinygo_runtime_bdwgc_init` always registers the
push-other-roots callback; it installs the replacement warning procedure
only on WebAssembly, and that procedure suppresses every collector
warning delivered through the warning hook (the large-allocation class
along with all others), while off WebAssembly every warning is still
emitted. -/
theorem bdwgc_init_warn_filter (wasm : Bool) :
    (tinygo_runtime_bdwgc_init wasm GC_defaultHooks).pushOtherRootsRegistered
      = true ∧
    ∀ msg arg,
      (tinygo_runtime_bdwgc_init wasm GC_defaultHooks).warn msg arg =
        (if wasm then none else some msg) := by
  cases wasm <;>
    simp [tinygo_runtime_bdwgc_init, GC_defaultHooks, warn_proc,
      GC_default_warn_proc]

end TinygoGcBoehm
